import Mathlib

/-!
Verification of the obesity-treatment-planner repository.

This file gives a shallow embedding, in Lean 4, of the pure computational
content of the repository (BMI calculation, patient-record decoding and
lookup, criteria filtering, prompt assembly and the five-stage pipeline
wiring, and the retrieval-tool error handling), and proves or refutes the
specification's claims about it.

Numeric conventions: Python floats are modelled as rationals (`ℚ`), Python
ints as `ℤ`; `None`/NaN cells are modelled with `Option`.  Python's
`round(x, 2)` (round-half-to-even on the second decimal) is modelled
exactly on rationals by `roundHalfEven`.
-/

namespace ObesityPlanner

/-! ## BMI calculation (src/app.py, ModernGradioInterface.calculate_bmi) -/

/-- Round a rational to the nearest integer, ties to even: the semantics of
Python's builtin `round` on exact values. -/
def roundHalfEven (q : ℚ) : ℤ :=
  let f : ℤ := ⌊q⌋
  let r : ℚ := q - f
  if r < 1/2 then f
  else if 1/2 < r then f + 1
  else if f % 2 = 0 then f else f + 1

/-- Round to two decimal places, as Python's `round(x, 2)`. -/
def round2 (q : ℚ) : ℚ := (roundHalfEven (q * 100) : ℚ) / 100

/-- Embedding of `ModernGradioInterface.calculate_bmi` (src/app.py).
`none` models a `None`/empty input.  The guards, the BMI formula, the
Asian-cutoff category thresholds and the final rounding follow the source
line by line. -/
def calculate_bmi (weight_kg height_cm : Option ℚ) : ℚ × String :=
  match weight_kg, height_cm with
  | none, _ => (0, "Invalid")
  | some w, none =>
    if w ≤ 0 then (0, "Invalid") else (0, "Invalid")
  | some w, some h =>
    if w ≤ 0 then (0, "Invalid")
    else if h ≤ 0 then (0, "Invalid")
    else
      let height_m := h / 100
      let bmi := w / height_m ^ 2
      let category :=
        if bmi < 18.5 then "Underweight"
        else if 18.5 ≤ bmi ∧ bmi < 23.0 then "Normal"
        else if 23.0 ≤ bmi ∧ bmi < 27.5 then "Overweight"
        else "Obese"
      (round2 bmi, category)

/-- The BMI value before rounding, for positive weight and height. -/
def rawBmi (w h : ℚ) : ℚ := w / (h / 100) ^ 2

/-- Collapsing the chained-comparison guards of the source into a simple
nested conditional. -/
lemma catOf_eq (b : ℚ) :
    (if b < 18.5 then "Underweight"
     else if 18.5 ≤ b ∧ b < 23.0 then "Normal"
     else if 23.0 ≤ b ∧ b < 27.5 then "Overweight"
     else "Obese")
    = (if b < 18.5 then "Underweight"
       else if b < 23.0 then "Normal"
       else if b < 27.5 then "Overweight"
       else "Obese") := by
  by_cases h1 : b < 18.5
  · simp [h1]
  · by_cases h2 : b < 23.0
    · simp [h1, h2, not_lt.mp h1]
    · by_cases h3 : b < 27.5
      · simp [h1, h2, h3, not_lt.mp h2]
      · simp [h1, h2, h3]

/-- C1: BMI classification is total on positive inputs, returns exactly one
of the four categories with the stated thresholds, and returns the invalid
marker `(0.0, "Invalid")` on every zero, negative or missing input. -/
theorem C1_bmi_classification (w h : ℚ) :
    (0 < w → 0 < h →
      ((calculate_bmi (some w) (some h)).2 = "Underweight" ↔ rawBmi w h < 18.5)
      ∧ ((calculate_bmi (some w) (some h)).2 = "Normal" ↔
          18.5 ≤ rawBmi w h ∧ rawBmi w h < 23.0)
      ∧ ((calculate_bmi (some w) (some h)).2 = "Overweight" ↔
          23.0 ≤ rawBmi w h ∧ rawBmi w h < 27.5)
      ∧ ((calculate_bmi (some w) (some h)).2 = "Obese" ↔ 27.5 ≤ rawBmi w h)
      ∧ (calculate_bmi (some w) (some h)).2 ∈
          ["Underweight", "Normal", "Overweight", "Obese"])
    ∧ (w ≤ 0 → calculate_bmi (some w) (some h) = (0, "Invalid"))
    ∧ (h ≤ 0 → calculate_bmi (some w) (some h) = (0, "Invalid"))
    ∧ calculate_bmi none (some h) = (0, "Invalid")
    ∧ calculate_bmi (some w) none = (0, "Invalid") := by
  refine ⟨fun hw hh => ?_, fun hw => ?_, fun hh => ?_, rfl, ?_⟩
  · have hw' : ¬ w ≤ 0 := not_le.mpr hw
    have hh' : ¬ h ≤ 0 := not_le.mpr hh
    have hcat : (calculate_bmi (some w) (some h)).2 =
        (if rawBmi w h < 18.5 then "Underweight"
         else if rawBmi w h < 23.0 then "Normal"
         else if rawBmi w h < 27.5 then "Overweight"
         else "Obese") := by
      simp only [calculate_bmi, if_neg hw', if_neg hh', rawBmi]
      exact catOf_eq _
    rw [hcat]
    split_ifs with h1 h2 h3 <;>
      refine ⟨⟨fun hc => ?_, fun hr => ?_⟩, ⟨fun hc => ?_, fun hr => ?_⟩,
        ⟨fun hc => ?_, fun hr => ?_⟩, ⟨fun hc => ?_, fun hr => ?_⟩, by simp⟩ <;>
      simp_all <;> linarith
  · simp [calculate_bmi, hw]
  · rcases le_or_lt w 0 with hw | hw
    · simp [calculate_bmi, hw, hh]
    · have hw' : ¬ w ≤ 0 := not_le.mpr hw
      simp [calculate_bmi, hw', hh]
  · cases hw : (some w : Option ℚ) <;> simp [calculate_bmi]

/-- Witness for C1: at weight 75 kg and height 160 cm the positive-input
branch applies and the category is "Obese"; at weight −5 the invalid
marker is returned. -/
theorem C1_bmi_classification_witness :
    ((0 : ℚ) < 75 ∧ (0 : ℚ) < 160
      ∧ (calculate_bmi (some 75) (some 160)).2 = "Obese")
    ∧ ((-5 : ℚ) ≤ 0 ∧ calculate_bmi (some (-5)) (some 160) = (0, "Invalid")) := by
  refine ⟨⟨by norm_num, by norm_num, ?_⟩, by norm_num,
    (C1_bmi_classification (-5) 160).2.1 (by norm_num)⟩
  have h := ((C1_bmi_classification 75 160).1 (by norm_num) (by norm_num)).2.2.2.1
  exact h.mpr (by norm_num [rawBmi])

/-- C2: on the concrete input weight 75 kg, height 160 cm, the BMI
calculation returns exactly (29.30, "Obese"). -/
theorem C2_bmi_concrete :
    calculate_bmi (some 75) (some 160) = (29.30, "Obese") := by
  norm_num [calculate_bmi, round2, roundHalfEven]

/-! ## Categorical decoding tables

`src/tools/patient_data_tool.py` and `src/tools/patient_data_indexer.py`
each define `STATE_MAPPING`, `RESIDENCE_MAPPING` and `WEALTH_MAPPING` at
module level.  Python dicts preserve insertion order, so each table is
embedded as an association list in source order. -/

namespace PatientDataTool

/-- Embedding of `STATE_MAPPING` of src/tools/patient_data_tool.py (NFHS-5 state codes). -/
def STATE_MAPPING : List (ℤ × String) :=
  [(1, "Andhra Pradesh"), (2, "Arunachal Pradesh"), (3, "Assam"), (4, "Bihar"),
   (5, "Chhattisgarh"), (6, "Goa"), (7, "Gujarat"), (8, "Haryana"),
   (9, "Himachal Pradesh"), (10, "Jharkhand"), (11, "Karnataka"), (12, "Kerala"),
   (13, "Madhya Pradesh"), (14, "Maharashtra"), (15, "Manipur"), (16, "Meghalaya"),
   (17, "Mizoram"), (18, "Nagaland"), (19, "Odisha"), (20, "Punjab"),
   (21, "Rajasthan"), (22, "Sikkim"), (23, "Tamil Nadu"), (24, "Telangana"),
   (25, "Tripura"), (26, "Uttar Pradesh"), (27, "Uttarakhand"), (28, "West Bengal"),
   (29, "Delhi"), (30, "Jammu & Kashmir"), (31, "Ladakh"), (32, "Andaman & Nicobar"),
   (33, "Chandigarh"), (34, "Dadra & Nagar Haveli"), (35, "Lakshadweep"), (36, "Puducherry")]

/-- Embedding of `RESIDENCE_MAPPING` of src/tools/patient_data_tool.py. -/
def RESIDENCE_MAPPING : List (ℤ × String) := [(1, "Urban"), (2, "Rural")]

/-- Embedding of `WEALTH_MAPPING` of src/tools/patient_data_tool.py. -/
def WEALTH_MAPPING : List (ℤ × String) :=
  [(1, "Poorest"), (2, "Poorer"), (3, "Middle"), (4, "Richer"), (5, "Richest")]

end PatientDataTool

namespace PatientDataIndexer

/-- Embedding of `STATE_MAPPING` of src/tools/patient_data_indexer.py. -/
def STATE_MAPPING : List (ℤ × String) :=
  [(1, "Andhra Pradesh"), (2, "Arunachal Pradesh"), (3, "Assam"), (4, "Bihar"),
   (5, "Chhattisgarh"), (6, "Goa"), (7, "Gujarat"), (8, "Haryana"),
   (9, "Himachal Pradesh"), (10, "Jharkhand"), (11, "Karnataka"), (12, "Kerala"),
   (13, "Madhya Pradesh"), (14, "Maharashtra"), (15, "Manipur"), (16, "Meghalaya"),
   (17, "Mizoram"), (18, "Nagaland"), (19, "Odisha"), (20, "Punjab"),
   (21, "Rajasthan"), (22, "Sikkim"), (23, "Tamil Nadu"), (24, "Telangana"),
   (25, "Tripura"), (26, "Uttar Pradesh"), (27, "Uttarakhand"), (28, "West Bengal"),
   (29, "Delhi"), (30, "Jammu & Kashmir"), (31, "Ladakh"), (32, "Andaman & Nicobar"),
   (33, "Chandigarh"), (34, "Dadra & Nagar Haveli"), (35, "Lakshadweep"), (36, "Puducherry")]

/-- Embedding of `RESIDENCE_MAPPING` of src/tools/patient_data_indexer.py. -/
def RESIDENCE_MAPPING : List (ℤ × String) := [(1, "Urban"), (2, "Rural")]

/-- Embedding of `WEALTH_MAPPING` of src/tools/patient_data_indexer.py. -/
def WEALTH_MAPPING : List (ℤ × String) :=
  [(1, "Poorest"), (2, "Poorer"), (3, "Middle"), (4, "Richer"), (5, "Richest")]

end PatientDataIndexer

/-- Python's `dict.get(key, default)` on an insertion-ordered table. -/
def dictGet (table : List (ℤ × String)) (key : ℤ) (default : String) : String :=
  match table.find? (fun p => p.1 = key) with
  | some p => p.2
  | none => default

/-! ## PatientDataLoader (src/tools/patient_data_tool.py) -/

/-- One raw row of the NFHS CSV as pandas presents it to the loader:
`none` models a NaN cell, `name` is the pandas row label (the row index). -/
structure Row where
  name : ℕ
  Age : Option ℤ
  Height_cm : Option ℚ
  Weight_kg : Option ℚ
  BMI : Option ℚ
  BMI_Category : Option String
  State : Option ℤ
  Urban_Rural : Option ℤ
  Wealth_Index : Option ℤ
deriving DecidableEq, Repr

/-- The dictionary `PatientDataLoader._format_patient_data` builds. -/
structure PatientRecord where
  patient_id : String
  age : Option ℤ
  height_cm : Option ℚ
  weight_kg : Option ℚ
  bmi : Option ℚ
  bmi_category : String
  state : String
  residence_type : String
  wealth_index : String
  location_context : String
  socioeconomic_status : String
  dietary_context : String
  physical_activity_context : String
deriving DecidableEq, Repr

/-- Embedding of `PatientDataLoader._get_dietary_context`. -/
def _get_dietary_context (_state residence : String) : String :=
  if residence = "Rural" then
    "Traditional Indian diet with locally grown crops, rice/wheat based meals"
  else
    "Urban diet with mix of traditional and modern foods, increased processed food access"

/-- Embedding of `PatientDataLoader._get_activity_context`. -/
def _get_activity_context (residence wealth : String) : String :=
  if residence = "Rural" then
    "Moderate to high physical labor in agriculture or manual work"
  else if wealth = "Richest" ∨ wealth = "Richer" then
    "Sedentary office work, limited physical activity, gym access available"
  else
    "Mix of manual and sedentary work, limited structured exercise"

/-- Embedding of `PatientDataLoader._format_patient_data`: decodes the categorical codes
through the fixed tables (NaN coerced to code 0, unmapped codes defaulting
to "Unknown") and assembles the patient dictionary. -/
def _format_patient_data (row : Row) : PatientRecord :=
  let state_code := row.State.getD 0
  let state_name := dictGet PatientDataTool.STATE_MAPPING state_code "Unknown"
  let residence_code := row.Urban_Rural.getD 0
  let residence_type := dictGet PatientDataTool.RESIDENCE_MAPPING residence_code "Unknown"
  let wealth_code := row.Wealth_Index.getD 0
  let wealth_index := dictGet PatientDataTool.WEALTH_MAPPING wealth_code "Unknown"
  { patient_id := "NFHS_" ++ toString row.name
    age := row.Age
    height_cm := row.Height_cm
    weight_kg := row.Weight_kg
    bmi := row.BMI
    bmi_category := row.BMI_Category.getD "Unknown"
    state := state_name
    residence_type := residence_type
    wealth_index := wealth_index
    location_context := residence_type ++ " area in " ++ state_name
    socioeconomic_status := wealth_index
    dietary_context := _get_dietary_context state_name residence_type
    physical_activity_context := _get_activity_context residence_type wealth_index }

/-- C6: categorical codes are decoded through the fixed tables, and any
code absent from a table (such as state code 99) decodes to "Unknown"
rather than failing. -/
theorem C6_unknown_codes (row : Row) (c : ℤ) :
    (row.State = some c → c ∉ PatientDataTool.STATE_MAPPING.map Prod.fst →
      (_format_patient_data row).state = "Unknown")
    ∧ (row.Urban_Rural = some c → c ∉ PatientDataTool.RESIDENCE_MAPPING.map Prod.fst →
      (_format_patient_data row).residence_type = "Unknown")
    ∧ (row.Wealth_Index = some c → c ∉ PatientDataTool.WEALTH_MAPPING.map Prod.fst →
      (_format_patient_data row).wealth_index = "Unknown")
    ∧ (row.State = some c → c ∈ PatientDataTool.STATE_MAPPING.map Prod.fst →
      some (_format_patient_data row).state =
        (PatientDataTool.STATE_MAPPING.find? (fun p => p.1 = c)).map Prod.snd) := by
  have key : ∀ (t : List (ℤ × String)), c ∉ t.map Prod.fst →
      dictGet t c "Unknown" = "Unknown" := by
    intro t hc
    have : t.find? (fun p => p.1 = c) = none := by
      rw [List.find?_eq_none]
      intro p hp
      simp only [decide_eq_true_eq]
      intro hpc
      exact hc (List.mem_map.mpr ⟨p, hp, hpc⟩)
    simp [dictGet, this]
  refine ⟨fun hs hc => ?_, fun hs hc => ?_, fun hs hc => ?_, fun hs hc => ?_⟩
  · simp [_format_patient_data, hs, key _ hc]
  · simp [_format_patient_data, hs, key _ hc]
  · simp [_format_patient_data, hs, key _ hc]
  · rcases List.mem_map.mp hc with ⟨p, hp, hpc⟩
    cases hq : PatientDataTool.STATE_MAPPING.find? (fun r => r.1 = c) with
    | none =>
        rw [List.find?_eq_none] at hq
        have := hq p hp
        simp [hpc] at this
    | some q =>
        simp [_format_patient_data, hs, dictGet, hq]

/-- Witness for C6: state code 99 is absent from the table and decodes to
"Unknown"; state code 14 decodes to "Maharashtra". -/
theorem C6_unknown_codes_witness :
    ((Row.mk 0 none none none none none (some 99) (some 99) (some 99)).State = some 99
      ∧ (99 : ℤ) ∉ PatientDataTool.STATE_MAPPING.map Prod.fst
      ∧ (_format_patient_data
          (Row.mk 0 none none none none none (some 99) (some 99) (some 99))).state
        = "Unknown")
    ∧ (_format_patient_data
        (Row.mk 0 none none none none none (some 14) (some 1) (some 3))).state
      = "Maharashtra" := by
  refine ⟨⟨rfl, by decide, ?_⟩, by decide⟩
  exact (C6_unknown_codes _ 99).1 rfl (by decide)

/-- Embedding of `PatientDataLoader.get_patient_by_index`: bounds-checked row lookup.
Out-of-range indices raise `ValueError` (modelled as `Except.error` with
the source's message); in-range indices return the formatted record. -/
def get_patient_by_index (df : List Row) (index : ℤ) : Except String PatientRecord :=
  if h : index < 0 ∨ (df.length : ℤ) ≤ index then
    .error ("Index " ++ toString index ++ " out of range (0-" ++
      toString ((df.length : ℤ) - 1) ++ ")")
  else
    .ok (_format_patient_data (df.get ⟨index.toNat, by omega⟩))

/-- C4: `get_patient_by_index` is total on `[0, n)` — every in-range index
returns a record — and every out-of-range index deterministically yields
the index-out-of-range error, never a record. -/
theorem C4_by_index_total (df : List Row) (index : ℤ) :
    (0 ≤ index → index < df.length →
      ∃ rec, get_patient_by_index df index = .ok rec)
    ∧ (index < 0 ∨ (df.length : ℤ) ≤ index →
      get_patient_by_index df index =
        .error ("Index " ++ toString index ++ " out of range (0-" ++
          toString ((df.length : ℤ) - 1) ++ ")"))
    ∧ (∀ rec, get_patient_by_index df index = .ok rec →
      0 ≤ index ∧ index < df.length) := by
  refine ⟨fun h0 hn => ?_, fun hout => ?_, fun rec hok => ?_⟩
  · have h : ¬ (index < 0 ∨ (df.length : ℤ) ≤ index) := by omega
    exact ⟨_, by rw [get_patient_by_index, dif_neg h]⟩
  · simp [get_patient_by_index, hout]
  · by_contra hcon
    have h : index < 0 ∨ (df.length : ℤ) ≤ index := by omega
    simp [get_patient_by_index, h] at hok

/-- Witness for C4: on a one-row dataset, index 0 succeeds and index 5
fails with the out-of-range error. -/
theorem C4_by_index_total_witness :
    ((0 : ℤ) ≤ 0 ∧ (0 : ℤ) < ([Row.mk 0 none none none none none none none none].length : ℤ)
      ∧ ∃ rec, get_patient_by_index [Row.mk 0 none none none none none none none none] 0
          = .ok rec)
    ∧ (((5 : ℤ) < 0 ∨ ([Row.mk 0 none none none none none none none none].length : ℤ) ≤ 5)
      ∧ get_patient_by_index [Row.mk 0 none none none none none none none none] 5
          = .error "Index 5 out of range (0-0)") := by
  refine ⟨⟨le_refl 0, by decide, ?_⟩, ⟨by decide, ?_⟩⟩
  · exact (C4_by_index_total [Row.mk 0 none none none none none none none none] 0).1
      (by decide) (by decide)
  · exact (C4_by_index_total [Row.mk 0 none none none none none none none none] 5).2.1
      (by decide)

/-! ## get_patients_by_criteria (src/tools/patient_data_tool.py)

The source applies the four optional filters in sequence (a filter whose
value is `None`/empty is skipped, per Python truthiness); a state or
wealth value with no case-insensitive match in the lookup table leaves
`state_code`/`wealth_code` as `None`, so that filter is silently dropped;
any residence value other than "urban" (case-insensitive) is coded as
Rural.  Finally `df.sample(n=limit)` draws `limit` rows when more than
`limit` remain; the random sampler is modelled as an explicit `sample`
argument. -/

/-- Python's `str.lower()` on the ASCII strings this code compares
(kernel-reducible, unlike `String.toLower`). -/
def pyLower (s : String) : String := ⟨s.data.map Char.toLower⟩

/-- The `for code, name in MAPPING.items(): if name.lower() == s.lower():
state_code = code; break` search of the source. -/
def find_code (mapping : List (ℤ × String)) (s : String) : Option ℤ :=
  (mapping.find? (fun p => pyLower p.2 = pyLower s)).map Prod.fst

/-- The state-filter block of `get_patients_by_criteria`. -/
def filter_state (df : List Row) (state : Option String) : List Row :=
  match state with
  | none => df
  | some s =>
    if s = "" then df
    else
      match find_code PatientDataTool.STATE_MAPPING s with
      | none => df
      | some code =>
        if code = 0 then df else df.filter (fun r => r.State = some code)

/-- The residence-filter block: `residence_code = 1 if
residence_type.lower() == "urban" else 2`. -/
def filter_residence (df : List Row) (residence_type : Option String) : List Row :=
  match residence_type with
  | none => df
  | some s =>
    if s = "" then df
    else
      let code : ℤ := if pyLower s = "urban" then 1 else 2
      df.filter (fun r => r.Urban_Rural = some code)

/-- The BMI-category-filter block: case-insensitive comparison against the
raw `BMI_Category` column (NaN never matches). -/
def filter_bmi_category (df : List Row) (bmi_category : Option String) : List Row :=
  match bmi_category with
  | none => df
  | some s =>
    if s = "" then df
    else
      df.filter (fun r =>
        match r.BMI_Category with
        | some cat => pyLower cat = pyLower s
        | none => false)

/-- The wealth-filter block, analogous to the state one. -/
def filter_wealth (df : List Row) (wealth_index : Option String) : List Row :=
  match wealth_index with
  | none => df
  | some s =>
    if s = "" then df
    else
      match find_code PatientDataTool.WEALTH_MAPPING s with
      | none => df
      | some code =>
        if code = 0 then df else df.filter (fun r => r.Wealth_Index = some code)

/-- Embedding of `PatientDataLoader.get_patients_by_criteria`: sequential filtering,
then `df.sample(n=limit)` when more than `limit` rows remain, then row
formatting.  `sample` abstracts pandas' random sampler. -/
def get_patients_by_criteria (df : List Row)
    (state residence_type bmi_category wealth_index : Option String)
    (limit : ℕ) (sample : List Row → ℕ → List Row) : List PatientRecord :=
  let filtered :=
    filter_wealth (filter_bmi_category
      (filter_residence (filter_state df state) residence_type) bmi_category)
      wealth_index
  let chosen := if limit < filtered.length then sample filtered limit else filtered
  chosen.map _format_patient_data

/-- The row predicate the state-filter block actually applies: skipped
filters (unset, empty, or a value missing from the lookup table) hold of
every row. -/
def stateOk (state : Option String) (r : Row) : Bool :=
  match state with
  | none => true
  | some s =>
    if s = "" then true
    else
      match find_code PatientDataTool.STATE_MAPPING s with
      | none => true
      | some code => if code = 0 then true else r.State = some code

/-- The row predicate the residence-filter block actually applies. -/
def residenceOk (residence_type : Option String) (r : Row) : Bool :=
  match residence_type with
  | none => true
  | some s =>
    if s = "" then true
    else r.Urban_Rural = some (if pyLower s = "urban" then (1 : ℤ) else 2)

/-- The row predicate the BMI-category-filter block actually applies. -/
def bmiCategoryOk (bmi_category : Option String) (r : Row) : Bool :=
  match bmi_category with
  | none => true
  | some s =>
    if s = "" then true
    else
      match r.BMI_Category with
      | some cat => pyLower cat = pyLower s
      | none => false

/-- The row predicate the wealth-filter block actually applies. -/
def wealthOk (wealth_index : Option String) (r : Row) : Bool :=
  match wealth_index with
  | none => true
  | some s =>
    if s = "" then true
    else
      match find_code PatientDataTool.WEALTH_MAPPING s with
      | none => true
      | some code => if code = 0 then true else r.Wealth_Index = some code

/-- The conjunction of the four per-filter predicates: the filtering the
code as written performs. -/
def appliedPred (state residence_type bmi_category wealth_index : Option String)
    (r : Row) : Bool :=
  stateOk state r && residenceOk residence_type r
    && bmiCategoryOk bmi_category r && wealthOk wealth_index r

lemma mem_filter_state (df : List Row) (state : Option String) (x : Row) :
    x ∈ filter_state df state ↔ x ∈ df ∧ stateOk state x = true := by
  cases state with
  | none => simp [filter_state, stateOk]
  | some s =>
    by_cases hs : s = ""
    · simp [filter_state, stateOk, hs]
    · cases hc : find_code PatientDataTool.STATE_MAPPING s with
      | none => simp [filter_state, stateOk, hs, hc]
      | some code =>
        by_cases h0 : code = 0
        · simp [filter_state, stateOk, hs, hc, h0]
        · simp [filter_state, stateOk, hs, hc, h0, List.mem_filter]

lemma mem_filter_residence (df : List Row) (residence_type : Option String) (x : Row) :
    x ∈ filter_residence df residence_type ↔
      x ∈ df ∧ residenceOk residence_type x = true := by
  cases residence_type with
  | none => simp [filter_residence, residenceOk]
  | some s =>
    by_cases hs : s = ""
    · simp [filter_residence, residenceOk, hs]
    · simp [filter_residence, residenceOk, hs, List.mem_filter]

lemma mem_filter_bmi_category (df : List Row) (bmi_category : Option String) (x : Row) :
    x ∈ filter_bmi_category df bmi_category ↔
      x ∈ df ∧ bmiCategoryOk bmi_category x = true := by
  cases bmi_category with
  | none => simp [filter_bmi_category, bmiCategoryOk]
  | some s =>
    by_cases hs : s = ""
    · simp [filter_bmi_category, bmiCategoryOk, hs]
    · simp [filter_bmi_category, bmiCategoryOk, hs, List.mem_filter]

lemma mem_filter_wealth (df : List Row) (wealth_index : Option String) (x : Row) :
    x ∈ filter_wealth df wealth_index ↔ x ∈ df ∧ wealthOk wealth_index x = true := by
  cases wealth_index with
  | none => simp [filter_wealth, wealthOk]
  | some s =>
    by_cases hs : s = ""
    · simp [filter_wealth, wealthOk, hs]
    · cases hc : find_code PatientDataTool.WEALTH_MAPPING s with
      | none => simp [filter_wealth, wealthOk, hs, hc]
      | some code =>
        by_cases h0 : code = 0
        · simp [filter_wealth, wealthOk, hs, hc, h0]
        · simp [filter_wealth, wealthOk, hs, hc, h0, List.mem_filter]

/-- A pandas row used as a concrete test input: state code 14
(Maharashtra), urban, middle wealth. -/
def exRow : Row :=
  { name := 0, Age := some 35, Height_cm := some 160, Weight_kg := some 75,
    BMI := some 29.3, BMI_Category := some "Obese",
    State := some 14, Urban_Rural := some 1, Wealth_Index := some 3 }

/-- A deterministic stand-in for pandas' random sampler. -/
def takeSample (l : List Row) (n : ℕ) : List Row := l.take n

/-- C5 counterexample: with the single state filter "atlantis" — a value
that is no record's decoded state label — exact-match filtering would
return the empty list, but the code silently drops the unrecognized
filter and returns the (non-matching) record. -/
theorem C5_by_criteria_counterexample :
    (_format_patient_data exRow).state ≠ "atlantis"
    ∧ get_patients_by_criteria [exRow] (some "atlantis") none none none 10 takeSample
        ≠ [] := by
  constructor
  · decide
  · decide

/-- C5 amended: `get_patients_by_criteria` filters with the predicates the
code actually applies — state/wealth values absent from the lookup tables
are silently ignored, a residence value other than "urban"
(case-insensitively) selects Rural, and BMI category matches
case-insensitively — returns at most `limit` records (sampled from the
matches when more match), and returns the empty list (never an error)
when no record passes the applied filters. -/
theorem C5_by_criteria_amended (df : List Row)
    (state residence_type bmi_category wealth_index : Option String)
    (limit : ℕ) (sample : List Row → ℕ → List Row)
    (hsample : ∀ l n, n ≤ l.length →
      (sample l n).length = n ∧ ∀ x ∈ sample l n, x ∈ l) :
    (get_patients_by_criteria df state residence_type bmi_category wealth_index
        limit sample).length ≤ limit
    ∧ (∀ p ∈ get_patients_by_criteria df state residence_type bmi_category
          wealth_index limit sample,
        ∃ r, r ∈ df
          ∧ appliedPred state residence_type bmi_category wealth_index r = true
          ∧ p = _format_patient_data r)
    ∧ ((∀ r ∈ df,
          appliedPred state residence_type bmi_category wealth_index r = false) →
        get_patients_by_criteria df state residence_type bmi_category wealth_index
          limit sample = []) := by
  have hmem : ∀ x, x ∈ filter_wealth (filter_bmi_category
      (filter_residence (filter_state df state) residence_type) bmi_category)
      wealth_index ↔
      x ∈ df ∧ appliedPred state residence_type bmi_category wealth_index x = true := by
    intro x
    rw [mem_filter_wealth, mem_filter_bmi_category, mem_filter_residence,
      mem_filter_state]
    simp only [appliedPred, Bool.and_eq_true]
    tauto
  simp only [get_patients_by_criteria]
  set filtered := filter_wealth (filter_bmi_category
    (filter_residence (filter_state df state) residence_type) bmi_category)
    wealth_index with hf
  set chosen := if limit < filtered.length then sample filtered limit else filtered
    with hc
  have hsub : ∀ x ∈ chosen, x ∈ filtered := by
    intro x hx
    rw [hc] at hx
    by_cases hl : limit < filtered.length
    · rw [if_pos hl] at hx
      exact (hsample filtered limit (le_of_lt hl)).2 x hx
    · rwa [if_neg hl] at hx
  refine ⟨?_, ?_, ?_⟩
  · rw [List.length_map, hc]
    by_cases hl : limit < filtered.length
    · rw [if_pos hl, (hsample filtered limit (le_of_lt hl)).1]
    · rw [if_neg hl]
      omega
  · intro p hp
    rcases List.mem_map.mp hp with ⟨r, hr, rfl⟩
    have hrf := (hmem r).mp (hsub r hr)
    exact ⟨r, hrf.1, hrf.2, rfl⟩
  · intro hall
    have hempty : filtered = [] := by
      rw [List.eq_nil_iff_forall_not_mem]
      intro x hx
      have h := (hmem x).mp hx
      rw [hall x h.1] at h
      exact absurd h.2 (by simp)
    rw [hc, hempty]
    simp

/-- Witness for C5 amended: `List.take` is a valid sampler, and on a
one-row dataset with the state filter "maharashtra" the result has at most
5 entries; the theorem is applied at those concrete inputs. -/
theorem C5_by_criteria_amended_witness :
    (∀ (l : List Row) (n : ℕ), n ≤ l.length →
      (takeSample l n).length = n ∧ ∀ x ∈ takeSample l n, x ∈ l)
    ∧ (get_patients_by_criteria [exRow] (some "maharashtra") none none none 5
        takeSample).length ≤ 5 := by
  have hs : ∀ (l : List Row) (n : ℕ), n ≤ l.length →
      (takeSample l n).length = n ∧ ∀ x ∈ takeSample l n, x ∈ l := by
    intro l n hn
    refine ⟨?_, fun x hx => List.take_subset _ _ hx⟩
    simp only [takeSample, List.length_take]
    omega
  exact ⟨hs,
    (C5_by_criteria_amended [exRow] (some "maharashtra") none none none 5
      takeSample hs).1⟩

/-- C10: the three categorical decoding tables are defined identically in
the patient data loader and the patient data indexer. -/
theorem C10_mappings_agree :
    PatientDataTool.STATE_MAPPING = PatientDataIndexer.STATE_MAPPING
    ∧ PatientDataTool.RESIDENCE_MAPPING = PatientDataIndexer.RESIDENCE_MAPPING
    ∧ PatientDataTool.WEALTH_MAPPING = PatientDataIndexer.WEALTH_MAPPING :=
  ⟨rfl, rfl, rfl⟩

/-! ## Treatment-plan entry point (src/app.py,
ModernGradioInterface.generate_treatment_plan)

The source validates the form inputs (`if not height_cm or not weight or
not age` — Python falsiness, so `None`/empty/zero — and then
`height_cm <= 0 or weight <= 0 or age < 18`) and returns an error string
before `self._ensure_initialized()` (crew + data-loader construction) and
`self.crew.create_treatment_plan(...)` (the LLM-calling kickoff) run.
The embedding records which external calls the run performs alongside its
outcome. -/

/-- The external calls the success path of `generate_treatment_plan`
makes, in order. -/
inductive ExtCall where
  | crewInit
  | dataLoaderInit
  | crewKickoff
deriving DecidableEq, Repr

/-- Outcome of a `generate_treatment_plan` run. -/
inductive GenOutcome where
  | validationError : String → GenOutcome
  | success : GenOutcome
deriving DecidableEq, Repr

/-- Embedding of the validation-and-dispatch skeleton of
`generate_treatment_plan`: the pair of (external calls made, outcome). -/
def generate_treatment_plan (height_cm weight : Option ℚ) (age : Option ℤ) :
    List ExtCall × GenOutcome :=
  match height_cm, weight, age with
  | some h, some w, some a =>
    if h = 0 ∨ w = 0 ∨ a = 0 then
      ([], .validationError "Please fill all required fields")
    else if h ≤ 0 ∨ w ≤ 0 ∨ a < 18 then
      ([], .validationError "Invalid height, weight, or age values")
    else
      ([.crewInit, .dataLoaderInit, .crewKickoff], .success)
  | _, _, _ => ([], .validationError "Please fill all required fields")

/-- C7: invalid patient data (missing fields, non-positive height or
weight, age under 18) aborts the run with a validation error before any
external call — the list of external calls made is empty — and a run that
reaches the external calls had valid inputs. -/
theorem C7_validation_before_external (height_cm weight : Option ℚ) (age : Option ℤ) :
    (∀ h w a, height_cm = some h → weight = some w → age = some a →
      h ≤ 0 ∨ w ≤ 0 ∨ a < 18 →
      (generate_treatment_plan height_cm weight age).1 = []
        ∧ ∃ msg, (generate_treatment_plan height_cm weight age).2 =
            .validationError msg)
    ∧ (height_cm = none ∨ weight = none ∨ age = none →
      generate_treatment_plan height_cm weight age =
        ([], .validationError "Please fill all required fields"))
    ∧ ((generate_treatment_plan height_cm weight age).2 = .success →
      ∃ h w a, height_cm = some h ∧ weight = some w ∧ age = some a
        ∧ 0 < h ∧ 0 < w ∧ 18 ≤ a) := by
  refine ⟨?_, ?_, ?_⟩
  · rintro h w a rfl rfl rfl hbad
    by_cases hz : h = 0 ∨ w = 0 ∨ a = 0
    · simp [generate_treatment_plan, hz]
    · have hb : h ≤ 0 ∨ w ≤ 0 ∨ a < 18 := hbad
      simp [generate_treatment_plan, hz, hb]
  · intro hmiss
    cases height_cm with
    | none => cases weight <;> cases age <;> simp [generate_treatment_plan]
    | some h =>
      cases weight with
      | none => cases age <;> simp [generate_treatment_plan]
      | some w =>
        cases age with
        | none => simp [generate_treatment_plan]
        | some a => simp at hmiss
  · intro hsucc
    match hh : height_cm, hw : weight, ha : age with
    | none, _, _ => simp [generate_treatment_plan] at hsucc
    | some h, none, _ => simp [generate_treatment_plan] at hsucc
    | some h, some w, none => simp [generate_treatment_plan] at hsucc
    | some h, some w, some a =>
      refine ⟨h, w, a, rfl, rfl, rfl, ?_⟩
      by_cases hz : h = 0 ∨ w = 0 ∨ a = 0
      · simp [generate_treatment_plan, hz] at hsucc
      · by_cases hb : h ≤ 0 ∨ w ≤ 0 ∨ a < 18
        · simp [generate_treatment_plan, hz, hb] at hsucc
        · push_neg at hb
          exact ⟨hb.1, hb.2.1, hb.2.2⟩

/-- Witness for C7: a 10-year-old applicant with otherwise valid data is
rejected with a validation error and no external call is made. -/
theorem C7_validation_before_external_witness :
    ((some (160 : ℚ)) = some 160 ∧ (some (75 : ℚ)) = some 75
      ∧ (some (10 : ℤ)) = some 10 ∧ ((160 : ℚ) ≤ 0 ∨ (75 : ℚ) ≤ 0 ∨ (10 : ℤ) < 18))
    ∧ (generate_treatment_plan (some 160) (some 75) (some 10)).1 = []
    ∧ ∃ msg, (generate_treatment_plan (some 160) (some 75) (some 10)).2 =
        .validationError msg := by
  have h := (C7_validation_before_external (some 160) (some 75) (some 10)).1
    160 75 10 rfl rfl rfl (by norm_num)
  exact ⟨⟨rfl, rfl, rfl, by norm_num⟩, h.1, h.2⟩

/-! ## Retrieval-tool error handling (src/tools/rag_tool.py,
src/tools/medical_knowledge_rag.py)

`query_medical_knowledge` wraps the retrieval (`get_medical_rag()` plus
`get_medical_context`) in `try/except` and returns an error string
instead of raising; `get_medical_context` returns a fixed
"no information found" message when the retrieval returns no documents.
The underlying retrieval is opaque external code (embeddings, ChromaDB),
modelled as an `Except`-valued input. -/

/-- A retrieved document: page content plus optional source metadata. -/
structure Doc where
  page_content : String
  source : Option String
deriving DecidableEq, Repr

/-- The enumerate-and-concatenate loop body of `get_medical_context`. -/
def contextBody : ℕ → List Doc → String
  | _, [] => ""
  | i, d :: ds =>
    "Source " ++ toString i ++ " (" ++ d.source.getD "Unknown" ++ "):\n"
      ++ d.page_content ++ "\n\n" ++ contextBody (i + 1) ds

/-- Embedding of `get_medical_context` (src/tools/medical_knowledge_rag.py): the
formatted context, or the substitute message when nothing was found. -/
def get_medical_context (results : List Doc) : String :=
  if results = [] then "No relevant medical information found."
  else "Relevant Medical Knowledge:\n\n" ++ contextBody 1 results

/-- Embedding of `query_medical_knowledge` (src/tools/rag_tool.py): the underlying
retrieval either yields documents or raises; the `except` branch turns
the exception into a text result. -/
def query_medical_knowledge (retrieval : Except String (List Doc)) : String :=
  match retrieval with
  | .ok docs => get_medical_context docs
  | .error e => "Error retrieving medical knowledge: " ++ e

/-- C8: retrieval failure is non-fatal — when the underlying retrieval
raises, the tool returns a substitute text result rather than
propagating the exception, and an empty retrieval yields the
"no information found" message. -/
theorem C8_retrieval_nonfatal (e : String) (docs : List Doc) :
    query_medical_knowledge (.error e) = "Error retrieving medical knowledge: " ++ e
    ∧ query_medical_knowledge (.ok []) = "No relevant medical information found."
    ∧ query_medical_knowledge (.ok docs) = get_medical_context docs :=
  ⟨rfl, rfl, rfl⟩

/-! ## Prompt assembly (src/tasks/all_tasks.py) -/

/-- Python's `str.replace('_', ' ')` for a single-character pattern. -/
def underscore_to_space (s : String) : String :=
  String.mk (s.data.map fun c => if c = '_' then ' ' else c)

/-- Python's `str.title()` on ASCII text: a letter is uppercased when the
previous character is not a letter and lowercased otherwise. -/
def titleChars : Bool → List Char → List Char
  | _, [] => []
  | prevAlpha, c :: cs =>
    (if c.isAlpha then (if prevAlpha then c.toLower else c.toUpper) else c)
      :: titleChars c.isAlpha cs

/-- Python's `str.title()` (ASCII). -/
def pyTitle (s : String) : String := String.mk (titleChars false s.data)

/-- One list entry of `format_patient_data`:
`f"- {formatted_key}: {value}"` with the key snake_case-to-Title-Case
converted; the value is its Python string rendering. -/
def mkEntry (kv : String × String) : String :=
  "- " ++ pyTitle (underscore_to_space kv.1) ++ ": " ++ kv.2

/-- Python's `sep.join(entries)`. -/
def joinSep (sep : String) : List String → String
  | [] => ""
  | [x] => x
  | x :: xs => x ++ sep ++ joinSep sep xs

/-- Embedding of `format_patient_data` (src/tasks/all_tasks.py): one entry per
dictionary field, joined with `"\n    "`. -/
def format_patient_data (data : List (String × String)) : String :=
  joinSep "\n    " (data.map mkEntry)

/-- Newline count of a string, to state "one line per field". -/
def countNewlines (s : String) : ℕ := s.data.count '\n'

lemma countNewlines_append (s t : String) :
    countNewlines (s ++ t) = countNewlines s + countNewlines t := by
  simp [countNewlines, String.data_append, List.count_append]

lemma joinSep_cons_cons (sep x y : String) (ys : List String) :
    joinSep sep (x :: y :: ys) = x ++ sep ++ joinSep sep (y :: ys) := rfl

lemma countNewlines_joinSep (entries : List String)
    (h : ∀ e ∈ entries, countNewlines e = 0) (hne : entries ≠ []) :
    countNewlines (joinSep "\n    " entries) = entries.length - 1 := by
  induction entries with
  | nil => exact absurd rfl hne
  | cons x xs ih =>
    cases xs with
    | nil => simpa [joinSep] using h x (by simp)
    | cons y ys =>
      rw [joinSep_cons_cons, countNewlines_append, countNewlines_append,
        ih (fun e he => h e (by simp [he])) (by simp), h x (by simp)]
      have hsep : countNewlines "\n    " = 1 := by decide
      simp only [hsep, List.length_cons]
      omega

lemma mem_infix_joinSep (sep : String) (entries : List String) (e : String)
    (he : e ∈ entries) : e.data <:+: (joinSep sep entries).data := by
  induction entries with
  | nil => simp at he
  | cons x xs ih =>
    cases xs with
    | nil =>
      have hx : e = x := by simpa using he
      subst hx
      simp [joinSep]
    | cons y ys =>
      rw [joinSep_cons_cons, String.data_append, String.data_append]
      rcases List.mem_cons.mp he with rfl | hmem
      · exact ⟨[], sep.data ++ (joinSep sep (y :: ys)).data, by
          simp [List.append_assoc]⟩
      · obtain ⟨s, t, heq⟩ := ih hmem
        exact ⟨x.data ++ sep.data ++ s, t, by
          rw [← heq]; simp [List.append_assoc]⟩

/-- C9: prompt assembly is deterministic (the embedding is a pure
function of the record) and the rendered patient block has exactly one
line per field — its newline count is one less than the field count when
each entry is single-line — with every field rendered as the Title Case
label of its snake_case key followed by its value, appearing verbatim in
the block. -/
theorem C9_prompt_assembly (data : List (String × String))
    (h : ∀ kv ∈ data, countNewlines (mkEntry kv) = 0) :
    (data ≠ [] →
      countNewlines (format_patient_data data) = data.length - 1)
    ∧ (∀ kv ∈ data, (mkEntry kv).data <:+: (format_patient_data data).data)
    ∧ (data.map mkEntry).length = data.length
    ∧ pyTitle (underscore_to_space "bmi_category") = "Bmi Category"
    ∧ pyTitle (underscore_to_space "height_cm") = "Height Cm" := by
  refine ⟨fun hne => ?_, fun kv hkv => ?_, List.length_map _ _, by decide, by decide⟩
  · rw [format_patient_data, countNewlines_joinSep]
    · simp
    · intro e he
      rcases List.mem_map.mp he with ⟨kv, hkv, rfl⟩
      exact h kv hkv
    · simpa using hne
  · exact mem_infix_joinSep _ _ _ (List.mem_map.mpr ⟨kv, hkv, rfl⟩)

/-- Witness for C9: a concrete two-field record has single-line entries,
a one-newline rendered block, and both entries appear in it. -/
theorem C9_prompt_assembly_witness :
    (∀ kv ∈ [("age", "35"), ("bmi_category", "Obese")],
      countNewlines (mkEntry kv) = 0)
    ∧ countNewlines (format_patient_data [("age", "35"), ("bmi_category", "Obese")])
        = 2 - 1
    ∧ (mkEntry ("age", "35")).data <:+:
        (format_patient_data [("age", "35"), ("bmi_category", "Obese")]).data := by
  have h : ∀ kv ∈ [("age", "35"), ("bmi_category", "Obese")],
      countNewlines (mkEntry kv) = 0 := by decide
  obtain ⟨h1, h2, -⟩ := C9_prompt_assembly [("age", "35"), ("bmi_category", "Obese")] h
  exact ⟨h, by simpa using h1 (by simp), h2 _ (by simp)⟩

/-! ## Five-stage pipeline wiring (src/crew.py, src/tasks/all_tasks.py)

A task description is a list of chunks: literal text and named
placeholders (the `{...}` holes of the YAML templates, which Python's
`str.format` substitutes).  `create_treatment_plan` (src/crew.py) builds
the five tasks in the fixed order analysis, diet, medical, fitness,
coordination and runs them with `Process.sequential`, so the schedule is
exactly that list.  The diet/medical/fitness descriptions receive the
literal placeholder `"{analysis}"` for their `diagnostic_report` slot and
the coordination description receives the literal placeholders
`"{diagnostic_report}"`, `"{diet_plan}"`, `"{medical_evaluation}"`,
`"{fitness_plan}"`; per the spec these placeholders are later replaced by
the named upstream stage outputs at kickoff. -/

/-- A fragment of a task description: literal text or a named
placeholder. -/
inductive Chunk where
  | lit : String → Chunk
  | ph : String → Chunk
deriving DecidableEq, Repr

/-- Python's `template.format(...)` over the chunk representation: each
placeholder supplied in `args` is replaced (with another placeholder, when
the supplied string is itself a `"{name}"` literal). -/
def pyFormatChunks (template : List Chunk) (args : List (String × Chunk)) :
    List Chunk :=
  template.map fun c =>
    match c with
    | .lit s => .lit s
    | .ph n =>
      match args.find? (fun p => p.1 = n) with
      | some p => p.2
      | none => .ph n

/-- Modelled from the spec: `config/tasks.yaml` is not under src/, so the
`analyze_patient_data` description template is modelled as literal text
around the one placeholder `{patient_data}` the code substitutes. -/
def analysis_template : List Chunk :=
  [.lit "Analyze the following patient profile:\n    ", .ph "patient_data",
   .lit "\nProvide a diagnostic report."]

/-- Modelled from the spec: the `create_diet_plan` description template,
with the placeholders `{patient_data}` and `{diagnostic_report}`. -/
def diet_template : List Chunk :=
  [.lit "Create a diet plan for:\n    ", .ph "patient_data",
   .lit "\nBased on this diagnostic report:\n", .ph "diagnostic_report"]

/-- Modelled from the spec: the `evaluate_medical_needs` description
template, with the placeholders `{patient_data}` and
`{diagnostic_report}`. -/
def medical_template : List Chunk :=
  [.lit "Evaluate medical needs for:\n    ", .ph "patient_data",
   .lit "\nBased on this diagnostic report:\n", .ph "diagnostic_report"]

/-- Modelled from the spec: the `create_fitness_plan` description
template, with the placeholders `{patient_data}` and
`{diagnostic_report}`. -/
def fitness_template : List Chunk :=
  [.lit "Create a fitness plan for:\n    ", .ph "patient_data",
   .lit "\nBased on this diagnostic report:\n", .ph "diagnostic_report"]

/-- Modelled from the spec: the `coordinate_treatment_plan` description
template, with the placeholders `{patient_data}`, `{diagnostic_report}`,
`{diet_plan}`, `{medical_evaluation}` and `{fitness_plan}`. -/
def coordination_template : List Chunk :=
  [.lit "Integrate all recommendations for:\n    ", .ph "patient_data",
   .lit "\nDiagnostic report:\n", .ph "diagnostic_report",
   .lit "\nDiet plan:\n", .ph "diet_plan",
   .lit "\nMedical evaluation:\n", .ph "medical_evaluation",
   .lit "\nFitness plan:\n", .ph "fitness_plan",
   .lit "\nProduce the final integrated treatment plan."]

/-- Embedding of `create_analysis_task`'s description (src/tasks/all_tasks.py). -/
def create_analysis_description (patient : List (String × String)) : List Chunk :=
  pyFormatChunks analysis_template
    [("patient_data", .lit (format_patient_data patient))]

/-- Embedding of `create_diet_plan_task`'s description. -/
def create_diet_plan_description (patient : List (String × String))
    (diagnostic_report : Chunk) : List Chunk :=
  pyFormatChunks diet_template
    [("patient_data", .lit (format_patient_data patient)),
     ("diagnostic_report", diagnostic_report)]

/-- Embedding of `create_medical_evaluation_task`'s description. -/
def create_medical_evaluation_description (patient : List (String × String))
    (diagnostic_report : Chunk) : List Chunk :=
  pyFormatChunks medical_template
    [("patient_data", .lit (format_patient_data patient)),
     ("diagnostic_report", diagnostic_report)]

/-- Embedding of `create_fitness_plan_task`'s description. -/
def create_fitness_plan_description (patient : List (String × String))
    (diagnostic_report : Chunk) : List Chunk :=
  pyFormatChunks fitness_template
    [("patient_data", .lit (format_patient_data patient)),
     ("diagnostic_report", diagnostic_report)]

/-- Embedding of `create_coordination_task`'s description: the four upstream slots are
filled with the literal placeholders the source passes. -/
def create_coordination_description (patient : List (String × String)) : List Chunk :=
  pyFormatChunks coordination_template
    [("patient_data", .lit (format_patient_data patient)),
     ("diagnostic_report", .ph "diagnostic_report"),
     ("diet_plan", .ph "diet_plan"),
     ("medical_evaluation", .ph "medical_evaluation"),
     ("fitness_plan", .ph "fitness_plan")]

/-- The five pipeline stages. -/
inductive Stage where
  | analysis
  | diet
  | medical
  | fitness
  | coordination
deriving DecidableEq, Repr

/-- The descriptions `ObesityTreatmentCrew.create_treatment_plan` builds:
diet/medical/fitness get the literal `"{analysis}"` placeholder, the
coordination task its four literal placeholders. -/
def taskDescription (patient : List (String × String)) : Stage → List Chunk
  | .analysis => create_analysis_description patient
  | .diet => create_diet_plan_description patient (.ph "analysis")
  | .medical => create_medical_evaluation_description patient (.ph "analysis")
  | .fitness => create_fitness_plan_description patient (.ph "analysis")
  | .coordination => create_coordination_description patient

/-- The `tasks=[...]` list of `create_treatment_plan`, the execution
order under `Process.sequential`. -/
def taskOrder : List Stage :=
  [.analysis, .diet, .medical, .fitness, .coordination]

/-- Which stage's output each remaining placeholder names (the analysis
output is the diagnostic report). -/
def placeholderStage : String → Option Stage
  | "analysis" => some .analysis
  | "diagnostic_report" => some .analysis
  | "diet_plan" => some .diet
  | "medical_evaluation" => some .medical
  | "fitness_plan" => some .fitness
  | _ => none

/-- The upstream stages a stage's constructed prompt references. -/
def deps (patient : List (String × String)) (s : Stage) : List Stage :=
  (taskDescription patient s).filterMap fun c =>
    match c with
    | .ph n => placeholderStage n
    | .lit _ => none

/-- The prompt a stage finally receives, as its list of fragments, once
each remaining placeholder is replaced by the named upstream stage's
output (modelled from the spec: the kickoff-time substitution is done by
the external agent framework). -/
def renderPrompt (patient : List (String × String)) (outputs : Stage → String)
    (s : Stage) : List String :=
  (taskDescription patient s).map fun c =>
    match c with
    | .lit t => t
    | .ph n =>
      match placeholderStage n with
      | some st => outputs st
      | none => ""

/-- Position of each stage in the sequential schedule. -/
def schedIdx : Stage → ℕ
  | .analysis => 0
  | .diet => 1
  | .medical => 2
  | .fitness => 3
  | .coordination => 4

lemma renderPrompt_diet (patient : List (String × String)) (outputs : Stage → String) :
    renderPrompt patient outputs .diet =
      ["Create a diet plan for:\n    ", format_patient_data patient,
       "\nBased on this diagnostic report:\n", outputs .analysis] := rfl

lemma renderPrompt_medical (patient : List (String × String)) (outputs : Stage → String) :
    renderPrompt patient outputs .medical =
      ["Evaluate medical needs for:\n    ", format_patient_data patient,
       "\nBased on this diagnostic report:\n", outputs .analysis] := rfl

lemma renderPrompt_fitness (patient : List (String × String)) (outputs : Stage → String) :
    renderPrompt patient outputs .fitness =
      ["Create a fitness plan for:\n    ", format_patient_data patient,
       "\nBased on this diagnostic report:\n", outputs .analysis] := rfl

lemma renderPrompt_coordination (patient : List (String × String))
    (outputs : Stage → String) :
    renderPrompt patient outputs .coordination =
      ["Integrate all recommendations for:\n    ", format_patient_data patient,
       "\nDiagnostic report:\n", outputs .analysis,
       "\nDiet plan:\n", outputs .diet,
       "\nMedical evaluation:\n", outputs .medical,
       "\nFitness plan:\n", outputs .fitness,
       "\nProduce the final integrated treatment plan."] := rfl

/-- C3: the sequential schedule runs every stage after all stages its
prompt depends on — analysis first, coordination last — and the
coordination prompt contains all four upstream outputs while each middle
stage's prompt contains the analysis output and references no other
middle stage's output (its dependency list is exactly `[analysis]`). -/
theorem C3_pipeline_order (patient : List (String × String))
    (outputs : Stage → String) :
    (∀ s, taskOrder.get? (schedIdx s) = some s)
    ∧ deps patient .analysis = []
    ∧ deps patient .diet = [.analysis]
    ∧ deps patient .medical = [.analysis]
    ∧ deps patient .fitness = [.analysis]
    ∧ deps patient .coordination = [.analysis, .diet, .medical, .fitness]
    ∧ (∀ s d, d ∈ deps patient s → schedIdx d < schedIdx s)
    ∧ outputs .analysis ∈ renderPrompt patient outputs .coordination
    ∧ outputs .diet ∈ renderPrompt patient outputs .coordination
    ∧ outputs .medical ∈ renderPrompt patient outputs .coordination
    ∧ outputs .fitness ∈ renderPrompt patient outputs .coordination
    ∧ outputs .analysis ∈ renderPrompt patient outputs .diet
    ∧ outputs .analysis ∈ renderPrompt patient outputs .medical
    ∧ outputs .analysis ∈ renderPrompt patient outputs .fitness := by
  refine ⟨fun s => ?_, rfl, rfl, rfl, rfl, rfl, fun s d hd => ?_, ?_, ?_, ?_, ?_,
    ?_, ?_, ?_⟩
  · cases s <;> rfl
  · cases s with
    | analysis =>
      rw [show deps patient Stage.analysis = [] from rfl] at hd
      simp at hd
    | diet =>
      rw [show deps patient Stage.diet = [Stage.analysis] from rfl] at hd
      fin_cases hd; decide
    | medical =>
      rw [show deps patient Stage.medical = [Stage.analysis] from rfl] at hd
      fin_cases hd; decide
    | fitness =>
      rw [show deps patient Stage.fitness = [Stage.analysis] from rfl] at hd
      fin_cases hd; decide
    | coordination =>
      rw [show deps patient Stage.coordination =
        [Stage.analysis, Stage.diet, Stage.medical, Stage.fitness] from rfl] at hd
      fin_cases hd <;> decide
  · rw [renderPrompt_coordination]; simp
  · rw [renderPrompt_coordination]; simp
  · rw [renderPrompt_coordination]; simp
  · rw [renderPrompt_coordination]; simp
  · rw [renderPrompt_diet]; simp
  · rw [renderPrompt_medical]; simp
  · rw [renderPrompt_fitness]; simp

/-- Witness for C3: for a concrete empty record and blank outputs, the
coordination stage depends on analysis and is scheduled after it. -/
theorem C3_pipeline_order_witness :
    Stage.analysis ∈ deps [] Stage.coordination
    ∧ schedIdx Stage.analysis < schedIdx Stage.coordination := by
  obtain ⟨-, -, -, -, -, hdeps, hord, -⟩ :=
    C3_pipeline_order [] (fun _ => "")
  have hmem : Stage.analysis ∈ deps [] Stage.coordination := by
    rw [hdeps]; simp
  exact ⟨hmem, hord _ _ hmem⟩

end ObesityPlanner
